import Mathlib

/-!
Verification of the request-handler layer of a gamified-engagement REST
backend (`src/server/routes.ts`).  The handler layer is embedded shallowly:
each Express route becomes a Lean function from the request data and a
storage state to an HTTP response paired with the resulting storage state.
The storage collaborator and the validation schemas live outside the
repository's source; they are modelled from the specification's storage
contract (§6) and validation contract (§4.1).  Storage failures ("a thrown
error from an awaited storage call") are modelled by a `FailSpec` record of
injection flags, one per storage operation: a set flag makes that operation
throw, transferring control to the handler's catch block with the state it
had at the throw point.
-/

/-- A local calendar date-time, as observed through the JavaScript `Date`
accessors used by the check-in handler: `getFullYear`, `getMonth` (0-based),
`getDate` (day of month), plus time-of-day components that the handler never
inspects (they witness that day equality is not a 24-hour window). -/
structure DateTime where
  year : Int
  month : Nat
  day : Nat
  hour : Nat
  minute : Nat
deriving Repr, DecidableEq

/-- `lastCheckin.getDate() === today.getDate() && lastCheckin.getMonth() ===
today.getMonth() && lastCheckin.getFullYear() === today.getFullYear()`
(routes.ts lines 57-60). -/
def isSameDay (a b : DateTime) : Bool :=
  a.day == b.day && a.month == b.month && a.year == b.year

/-- User record: identity, credentials, cumulative points, nullable
last-check-in timestamp (spec §3). -/
structure User where
  id : Nat
  username : String
  password : String
  points : Int
  lastCheckin : Option DateTime
deriving Repr, DecidableEq

/-- Message record: content plus owning user reference (spec §3). -/
structure Message where
  id : Nat
  content : String
  userId : Nat
deriving Repr, DecidableEq

/-- Notification record: title, body, read flag, owning user (spec §3). -/
structure Notification where
  id : Nat
  title : String
  message : String
  read : Bool
  userId : Nat
deriving Repr, DecidableEq

/-- Settings record: theme preference and notification toggles, one-to-one
with a user (spec §3). -/
structure Settings where
  userId : Nat
  theme : String
  notifications : Bool
  emailNotifications : Bool
deriving Repr, DecidableEq

/-- Modelled from the spec: the state owned by the external storage
collaborator (§6).  Entity lists are kept in creation order, so the
most-recently-created user is the last element of `getAllUsers`' result
(§4.1 "most recent wins").  `nextId` is the id fountain for created
records.  `validReferralCodes` determines `completeReferral`'s boolean
result ("404 if code invalid"); completed referrals are appended to
`completedReferrals`. -/
structure Store where
  users : List User
  messages : List Message
  notifications : List Notification
  settings : List Settings
  validReferralCodes : List String
  completedReferrals : List (String × String)
  nextId : Nat
deriving Repr, DecidableEq

/-- Modelled from the spec: `createUser(credentials) -> User` (§6) appends a
fresh user with zero points and no check-in. -/
def createUserOp (username password : String) (s : Store) : User × Store :=
  let u : User := ⟨s.nextId, username, password, 0, none⟩
  (u, { s with users := s.users ++ [u], nextId := s.nextId + 1 })

/-- Modelled from the spec: `createMessage(data, userId) -> Message` (§6). -/
def createMessageOp (content : String) (uid : Nat) (s : Store) : Message × Store :=
  let m : Message := ⟨s.nextId, content, uid⟩
  (m, { s with messages := s.messages ++ [m], nextId := s.nextId + 1 })

/-- Modelled from the spec: `updateUserPoints(userId, delta) -> User` (§6);
the handler discards the returned user, so only the state is modelled. -/
def updateUserPointsOp (uid : Nat) (delta : Int) (s : Store) : Store :=
  { s with users := s.users.map fun u =>
      if u.id == uid then { u with points := u.points + delta } else u }

/-- Modelled from the spec: `updateUserCheckin(userId) -> User`, which
records the check-in timestamp and "also awards points internally" (§6; the
check-in notification text says 10 points).  `none` when no user has the id
(the storage call throws). -/
def updateUserCheckinOp (uid : Nat) (now : DateTime) (s : Store) :
    Option (User × Store) :=
  match s.users.find? (fun u => u.id == uid) with
  | none => none
  | some u =>
      some ({ u with lastCheckin := some now, points := u.points + 10 },
        { s with users := s.users.map fun v =>
            if v.id == uid then { v with lastCheckin := some now, points := v.points + 10 }
            else v })

/-- Modelled from the spec: `createNotification(data, userId) ->
Notification` (§6); new notifications are unread. -/
def createNotificationOp (title msg : String) (uid : Nat) (s : Store) :
    Notification × Store :=
  let n : Notification := ⟨s.nextId, title, msg, false, uid⟩
  (n, { s with notifications := s.notifications ++ [n], nextId := s.nextId + 1 })

/-- Modelled from the spec: `deleteNotification(id) -> bool` (§6); reports
whether a record with the id existed and removes it. -/
def deleteNotificationOp (nid : Nat) (s : Store) : Bool × Store :=
  (s.notifications.any (fun n => n.id == nid),
    { s with notifications := s.notifications.filter fun n => n.id != nid })

/-- Modelled from the spec: `getSettingsByUserId(userId) -> Settings | null`
(§6). -/
def getSettingsByUserIdOp (uid : Nat) (s : Store) : Option Settings :=
  s.settings.find? fun q => q.userId == uid

/-- Modelled from the spec: `createSettings(data, userId) -> Settings` (§6). -/
def createSettingsOp (theme : String) (notifs emailNotifs : Bool) (uid : Nat)
    (s : Store) : Settings × Store :=
  let q : Settings := ⟨uid, theme, notifs, emailNotifs⟩
  (q, { s with settings := s.settings ++ [q] })

/-- The partial settings shape accepted by `insertSettingsSchema.partial()`:
any subset of the three settings fields (spec §4.1, "Settings updates
validate a partial shape"). -/
structure SettingsPatch where
  theme : Option String
  notifications : Option Bool
  emailNotifications : Option Bool
deriving Repr, DecidableEq

/-- Modelled from the spec: the merge `updateSettings(userId, partialData)
-> Settings` applies — supplied fields replace the stored ones, absent
fields are unchanged (§4.1 "apply partial update"). -/
def mergePatch (q : Settings) (p : SettingsPatch) : Settings :=
  { q with theme := p.theme.getD q.theme,
           notifications := p.notifications.getD q.notifications,
           emailNotifications := p.emailNotifications.getD q.emailNotifications }

/-- Modelled from the spec: `updateSettings(userId, partialData) -> Settings`
(§6) merges the patch into the user's settings record. -/
def updateSettingsOp (uid : Nat) (p : SettingsPatch) (s : Store) : Store :=
  { s with settings := s.settings.map fun q =>
      if q.userId == uid then mergePatch q p else q }

/-- Modelled from the spec: `completeReferral(code, userId) -> bool` (§6)
succeeds exactly when the code is valid, recording the completion. -/
def completeReferralOp (code uid : String) (s : Store) : Bool × Store :=
  if s.validReferralCodes.contains code then
    (true, { s with completedReferrals := s.completedReferrals ++ [(code, uid)] })
  else (false, s)

/-- Failure-injection flags, one per storage operation a handler awaits: a
set flag makes that call throw instead of running. -/
structure FailSpec where
  failGetAllUsers : Bool := false
  failCreateUser : Bool := false
  failGetMessages : Bool := false
  failCreateMessage : Bool := false
  failUpdateUserPoints : Bool := false
  failUpdateUserCheckin : Bool := false
  failCreateNotification : Bool := false
  failGetNotifications : Bool := false
  failDeleteNotification : Bool := false
  failGetSettings : Bool := false
  failCreateSettings : Bool := false
  failUpdateSettings : Bool := false
  failCompleteReferral : Bool := false
deriving Repr, DecidableEq

/-- The fail spec under which every storage call succeeds. -/
def noFail : FailSpec := {}

/-- Result of a fallible storage interaction: a value with the updated
state, or a thrown error carrying the state at the throw point. -/
inductive StResult (α : Type) where
  | ok (a : α) (s : Store)
  | err (s : Store)
deriving Repr

/-- The `getDemoUser` helper (routes.ts lines 11-20): fetch all users; if
none exist create one with the fixed demo credentials, otherwise return the
last user of the list. -/
def getDemoUser (fs : FailSpec) (s : Store) : StResult User :=
  if fs.failGetAllUsers then .err s
  else
    match s.users.getLast? with
    | none =>
        if fs.failCreateUser then .err s
        else
          let (u, s') := createUserOp "DemoUser" "demo" s
          .ok u s'
    | some u => .ok u s

/-- The failure-free demo-user resolution: the user `getDemoUser` yields
under `noFail`, with the state it leaves behind. -/
def resolveDemoUser (s : Store) : User × Store :=
  match s.users.getLast? with
  | none => createUserOp "DemoUser" "demo" s
  | some u => (u, s)

/-- The JSON bodies the handlers serialize. -/
inductive RespBody where
  | jsonUser (u : User)
  | jsonMessage (m : Message)
  | jsonMessages (ms : List Message)
  | jsonNotification (n : Notification)
  | jsonNotifications (ns : List Notification)
  | jsonSettings (q : Settings)
  | jsonSuccess
  | jsonError (msg : String)
deriving Repr, DecidableEq

/-- An HTTP response: status code and JSON body. -/
structure Response where
  status : Nat
  body : RespBody
deriving Repr, DecidableEq

/-- `GET /api/messages` (routes.ts lines 23-31): list the resolved user's
messages; any failure maps to 500. -/
def getMessagesH (fs : FailSpec) (s : Store) : Response × Store :=
  match getDemoUser fs s with
  | .err s' => (⟨500, .jsonError "Failed to fetch messages"⟩, s')
  | .ok user s' =>
      if fs.failGetMessages then (⟨500, .jsonError "Failed to fetch messages"⟩, s')
      else (⟨200, .jsonMessages (s'.messages.filter fun m => m.userId == user.id)⟩, s')

/-- `POST /api/messages` (routes.ts lines 33-46): resolve user, parse body
(`none` is a schema rejection), create the message, award 1 point; the
catch block maps every failure to 400 "Invalid message data". -/
def postMessagesH (fs : FailSpec) (body : Option String) (s : Store) :
    Response × Store :=
  match getDemoUser fs s with
  | .err s' => (⟨400, .jsonError "Invalid message data"⟩, s')
  | .ok user s' =>
      match body with
      | none => (⟨400, .jsonError "Invalid message data"⟩, s')
      | some content =>
          if fs.failCreateMessage then (⟨400, .jsonError "Invalid message data"⟩, s')
          else
            let (m, s1) := createMessageOp content user.id s'
            if fs.failUpdateUserPoints then (⟨400, .jsonError "Invalid message data"⟩, s1)
            else (⟨200, .jsonMessage m⟩, updateUserPointsOp user.id 1 s1)

/-- The tail of the check-in handler after the same-day guard (routes.ts
lines 67-79): update the check-in, create the fixed notification, respond
with the updated user. -/
def checkinProceed (fs : FailSpec) (now : DateTime) (user : User) (s : Store) :
    Response × Store :=
  if fs.failUpdateUserCheckin then (⟨500, .jsonError "Failed to check in"⟩, s)
  else
    match updateUserCheckinOp user.id now s with
    | none => (⟨500, .jsonError "Failed to check in"⟩, s)
    | some (updatedUser, s1) =>
        if fs.failCreateNotification then (⟨500, .jsonError "Failed to check in"⟩, s1)
        else
          let (_, s2) := createNotificationOp "Daily Check-in Complete!"
            "You've earned 10 points! Come back tomorrow for more." user.id s1
          (⟨200, .jsonUser updatedUser⟩, s2)

/-- `POST /api/checkin` (routes.ts lines 49-83): reject with 400 when the
resolved user's stored check-in falls on the same local calendar day as
`now`; otherwise record the check-in and create the notification. -/
def postCheckinH (fs : FailSpec) (now : DateTime) (s : Store) :
    Response × Store :=
  match getDemoUser fs s with
  | .err s' => (⟨500, .jsonError "Failed to check in"⟩, s')
  | .ok user s' =>
      match user.lastCheckin with
      | some t =>
          if isSameDay t now then (⟨400, .jsonError "Already checked in today"⟩, s')
          else checkinProceed fs now user s'
      | none => checkinProceed fs now user s'

/-- `GET /api/notifications` (routes.ts lines 108-116): list the resolved
user's notifications; any failure maps to 500. -/
def getNotificationsH (fs : FailSpec) (s : Store) : Response × Store :=
  match getDemoUser fs s with
  | .err s' => (⟨500, .jsonError "Failed to fetch notifications"⟩, s')
  | .ok user s' =>
      if fs.failGetNotifications then
        (⟨500, .jsonError "Failed to fetch notifications"⟩, s')
      else
        (⟨200, .jsonNotifications (s'.notifications.filter fun n => n.userId == user.id)⟩, s')

/-- `POST /api/notifications` (routes.ts lines 118-127): resolve user,
parse `(title, message)` body, create the notification; the catch block
maps every failure to 400 "Invalid notification data". -/
def postNotificationsH (fs : FailSpec) (body : Option (String × String))
    (s : Store) : Response × Store :=
  match getDemoUser fs s with
  | .err s' => (⟨400, .jsonError "Invalid notification data"⟩, s')
  | .ok user s' =>
      match body with
      | none => (⟨400, .jsonError "Invalid notification data"⟩, s')
      | some (title, msg) =>
          if fs.failCreateNotification then
            (⟨400, .jsonError "Invalid notification data"⟩, s')
          else
            let (n, s1) := createNotificationOp title msg user.id s'
            (⟨200, .jsonNotification n⟩, s1)

/-- `DELETE /api/notifications/:id` (routes.ts lines 152-163): delete by
id, 404 when no record matched, 200 `{success:true}` otherwise. -/
def deleteNotificationH (fs : FailSpec) (nid : Nat) (s : Store) :
    Response × Store :=
  if fs.failDeleteNotification then
    (⟨500, .jsonError "Failed to delete notification"⟩, s)
  else
    let (deleted, s') := deleteNotificationOp nid s
    if !deleted then (⟨404, .jsonError "Notification not found"⟩, s)
    else (⟨200, .jsonSuccess⟩, s')

/-- `GET /api/settings` (routes.ts lines 166-187): fetch the resolved
user's settings, creating the defaults (theme "light", notifications on,
email notifications off) when absent; any failure maps to 500. -/
def getSettingsH (fs : FailSpec) (s : Store) : Response × Store :=
  match getDemoUser fs s with
  | .err s' => (⟨500, .jsonError "Failed to fetch settings"⟩, s')
  | .ok user s' =>
      if fs.failGetSettings then (⟨500, .jsonError "Failed to fetch settings"⟩, s')
      else
        match getSettingsByUserIdOp user.id s' with
        | some q => (⟨200, .jsonSettings q⟩, s')
        | none =>
            if fs.failCreateSettings then
              (⟨500, .jsonError "Failed to fetch settings"⟩, s')
            else
              let (q, s1) := createSettingsOp "light" true false user.id s'
              (⟨200, .jsonSettings q⟩, s1)

/-- The JavaScript `parsed.theme || "light"` (routes.ts line 200): the
default is taken when the field is absent or falsy — and the empty string
is falsy. -/
def themeOrDefault (o : Option String) : String :=
  match o with
  | none => "light"
  | some t => if t = "" then "light" else t

/-- `PATCH /api/settings` (routes.ts lines 189-215): parse the partial
body; create settings from supplied-or-default values when absent (`||` for
the theme, `??` for the booleans), otherwise delegate the partial update to
storage; the catch block maps every failure to 400 "Invalid settings
data". -/
def patchSettingsH (fs : FailSpec) (body : Option SettingsPatch) (s : Store) :
    Response × Store :=
  match getDemoUser fs s with
  | .err s' => (⟨400, .jsonError "Invalid settings data"⟩, s')
  | .ok user s' =>
      match body with
      | none => (⟨400, .jsonError "Invalid settings data"⟩, s')
      | some p =>
          if fs.failGetSettings then (⟨400, .jsonError "Invalid settings data"⟩, s')
          else
            match getSettingsByUserIdOp user.id s' with
            | none =>
                if fs.failCreateSettings then
                  (⟨400, .jsonError "Invalid settings data"⟩, s')
                else
                  let (q, s1) := createSettingsOp (themeOrDefault p.theme)
                    (p.notifications.getD true) (p.emailNotifications.getD false)
                    user.id s'
                  (⟨200, .jsonSettings q⟩, s1)
            | some q =>
                if fs.failUpdateSettings then
                  (⟨400, .jsonError "Invalid settings data"⟩, s')
                else
                  (⟨200, .jsonSettings (mergePatch q p)⟩, updateSettingsOp user.id p s')

/-- JavaScript truthiness of an optional string body field: absent fields
and the empty string are falsy. -/
def truthy (o : Option String) : Bool :=
  match o with
  | none => false
  | some v => v != ""

/-- `POST /api/referral/complete` (routes.ts lines 228-246): 400 when
`referralCode` or `userId` is falsy, before any storage call; otherwise
complete the referral, 404 when storage reports failure, 200
`{success:true}` on success. -/
def postReferralCompleteH (fs : FailSpec) (referralCode userId : Option String)
    (s : Store) : Response × Store :=
  if !truthy referralCode || !truthy userId then
    (⟨400, .jsonError "Missing referral code or user ID"⟩, s)
  else
    if fs.failCompleteReferral then
      (⟨500, .jsonError "Failed to complete referral"⟩, s)
    else
      let (ok, s') := completeReferralOp (referralCode.getD "") (userId.getD "") s
      if !ok then (⟨404, .jsonError "Invalid referral code"⟩, s)
      else (⟨200, .jsonSuccess⟩, s')

/-- Well-formedness of the storage state used by point- and check-in
accounting: user ids are pairwise distinct. -/
def UniqueUserIds (s : Store) : Prop :=
  s.users.Pairwise fun a b => a.id ≠ b.id

/-- The points of the user a given id resolves to (0 when absent). -/
def pointsOf (uid : Nat) (s : Store) : Int :=
  match s.users.find? (fun u => u.id == uid) with
  | some u => u.points
  | none => 0

/-! ## Helper lemmas about demo-user resolution -/

theorem getDemoUser_ok (fs : FailSpec) (s : Store)
    (h1 : fs.failGetAllUsers = false) (h2 : fs.failCreateUser = false) :
    getDemoUser fs s = .ok (resolveDemoUser s).1 (resolveDemoUser s).2 := by
  unfold getDemoUser resolveDemoUser
  cases hl : s.users.getLast? <;> simp [h1, h2, hl, createUserOp]

theorem resolveDemoUser_users_getLast (s : Store) :
    (resolveDemoUser s).2.users.getLast? = some (resolveDemoUser s).1 := by
  unfold resolveDemoUser
  cases hl : s.users.getLast? <;> simp [hl, createUserOp, List.getLast?_concat]

theorem resolveDemoUser_mem (s : Store) :
    (resolveDemoUser s).1 ∈ (resolveDemoUser s).2.users :=
  List.mem_of_getLast?_eq_some (resolveDemoUser_users_getLast s)

theorem resolveDemoUser_frame (s : Store) :
    (resolveDemoUser s).2.messages = s.messages
    ∧ (resolveDemoUser s).2.notifications = s.notifications
    ∧ (resolveDemoUser s).2.settings = s.settings := by
  unfold resolveDemoUser
  cases hl : s.users.getLast? <;> simp [createUserOp]

theorem resolveDemoUser_of_lastCheckin_some (s : Store) {t : DateTime}
    (h : (resolveDemoUser s).1.lastCheckin = some t) :
    (resolveDemoUser s).2 = s := by
  unfold resolveDemoUser at h ⊢
  cases hl : s.users.getLast? with
  | none => rw [hl] at h; simp [createUserOp] at h
  | some u => simp [hl]

theorem checkinProceed_noFail (now : DateTime) (u : User) (s : Store)
    (hm : u ∈ s.users) :
    ∃ v s1, updateUserCheckinOp u.id now s = some (v, s1)
      ∧ v.lastCheckin = some now ∧ v.id = u.id
      ∧ checkinProceed noFail now u s
        = (⟨200, .jsonUser v⟩,
           (createNotificationOp "Daily Check-in Complete!"
             "You've earned 10 points! Come back tomorrow for more." u.id s1).2) := by
  have hsome : (s.users.find? fun v => v.id == u.id).isSome :=
    List.find?_isSome.mpr ⟨u, hm, by simp⟩
  obtain ⟨w, hw⟩ := Option.isSome_iff_exists.mp hsome
  have hwid : w.id = u.id := by simpa using List.find?_some hw
  refine ⟨{ w with lastCheckin := some now, points := w.points + 10 },
    { s with users := s.users.map fun v =>
        if v.id == u.id then { v with lastCheckin := some now, points := v.points + 10 }
        else v }, ?_, rfl, hwid, ?_⟩
  · unfold updateUserCheckinOp
    rw [hw]
  · unfold checkinProceed updateUserCheckinOp
    rw [hw]
    simp [noFail]

theorem postCheckin_cases (s : Store) (now : DateTime) :
    (∃ t, (resolveDemoUser s).1.lastCheckin = some t ∧ isSameDay t now = true
        ∧ postCheckinH noFail now s = (⟨400, .jsonError "Already checked in today"⟩, s))
    ∨ ((∀ t, (resolveDemoUser s).1.lastCheckin = some t → isSameDay t now = false)
        ∧ ∃ v s1,
          updateUserCheckinOp (resolveDemoUser s).1.id now (resolveDemoUser s).2
            = some (v, s1)
          ∧ v.lastCheckin = some now ∧ v.id = (resolveDemoUser s).1.id
          ∧ postCheckinH noFail now s
            = (⟨200, .jsonUser v⟩,
               (createNotificationOp "Daily Check-in Complete!"
                 "You've earned 10 points! Come back tomorrow for more."
                 (resolveDemoUser s).1.id s1).2)) := by
  have hstep : postCheckinH noFail now s
      = match (resolveDemoUser s).1.lastCheckin with
        | some t =>
            if isSameDay t now then
              (⟨400, .jsonError "Already checked in today"⟩, (resolveDemoUser s).2)
            else checkinProceed noFail now (resolveDemoUser s).1 (resolveDemoUser s).2
        | none => checkinProceed noFail now (resolveDemoUser s).1 (resolveDemoUser s).2 := by
    unfold postCheckinH
    rw [getDemoUser_ok noFail s rfl rfl]
  cases hc : (resolveDemoUser s).1.lastCheckin with
  | some t =>
    cases hsd : isSameDay t now with
    | true =>
      left
      refine ⟨t, rfl, hsd, ?_⟩
      rw [hstep, hc, resolveDemoUser_of_lastCheckin_some s hc]
      simp [hsd]
    | false =>
      right
      constructor
      · intro t' ht'
        injection ht' with ht''
        rw [← ht'']
        exact hsd
      · obtain ⟨v, s1, h1, h2, h3, h4⟩ :=
          checkinProceed_noFail now (resolveDemoUser s).1 (resolveDemoUser s).2
            (resolveDemoUser_mem s)
        refine ⟨v, s1, h1, h2, h3, ?_⟩
        rw [hstep, hc]
        simp [hsd, h4]
  | none =>
    right
    constructor
    · intro t' ht'
      exact Option.noConfusion ht'
    · obtain ⟨v, s1, h1, h2, h3, h4⟩ :=
        checkinProceed_noFail now (resolveDemoUser s).1 (resolveDemoUser s).2
          (resolveDemoUser_mem s)
      refine ⟨v, s1, h1, h2, h3, ?_⟩
      rw [hstep, hc, h4]

theorem updateUserCheckinOp_some_frame {uid : Nat} {now : DateTime} {s : Store}
    {v : User} {s1 : Store} (h : updateUserCheckinOp uid now s = some (v, s1)) :
    s1.notifications = s.notifications ∧ s1.nextId = s.nextId
    ∧ s1.messages = s.messages ∧ s1.settings = s.settings := by
  unfold updateUserCheckinOp at h
  cases hf : s.users.find? (fun u => u.id == uid) with
  | none => rw [hf] at h; exact Option.noConfusion h
  | some w =>
      rw [hf] at h
      injection h with h2
      rw [Prod.mk.injEq] at h2
      obtain ⟨hv, hs⟩ := h2
      rw [← hs]
      exact ⟨rfl, rfl, rfl, rfl⟩

/-! ## Concrete states used by the witnesses -/

/-- A user whose stored check-in is 1 April 2024, 23:59 local time. -/
def lateUser : User := ⟨0, "u", "p", 0, some ⟨2024, 4, 1, 23, 59⟩⟩

/-- A one-user store whose user checked in late on 1 April 2024. -/
def lateStore : Store := ⟨[lateUser], [], [], [], [], [], 1⟩

def uAlice : User := ⟨0, "alice", "pw", 0, none⟩

def uBob : User := ⟨1, "bob", "pw", 5, none⟩

/-- A store holding two users, created in the order alice then bob. -/
def twoUserStore : Store := ⟨[uAlice, uBob], [], [], [], [], [], 2⟩

/-- A store holding no users at all. -/
def emptyStore : Store := ⟨[], [], [], [], [], [], 0⟩

/-! ## C1 — same-calendar-day check-in rule -/

/-- C1: `POST /checkin` answers 400 "Already checked in today" exactly when
the resolved user's last check-in is non-null and its local calendar day,
month and year all equal those of the current time; it answers 200 on any
distinct calendar date, so the comparison is day equality and not a
24-hour rolling window. -/
theorem checkin_calendar_day_rule (s : Store) (now : DateTime) :
    ((postCheckinH noFail now s).1 = ⟨400, .jsonError "Already checked in today"⟩
      ↔ ∃ t, (resolveDemoUser s).1.lastCheckin = some t ∧ isSameDay t now = true)
    ∧ ((postCheckinH noFail now s).1.status = 200
      ↔ ∀ t, (resolveDemoUser s).1.lastCheckin = some t → isSameDay t now = false) := by
  rcases postCheckin_cases s now with ⟨t, hc, hsd, heq⟩ | ⟨hno, v, s1, h1, h2, h3, heq⟩
  · constructor
    · constructor
      · intro _
        exact ⟨t, hc, hsd⟩
      · intro _
        rw [heq]
    · constructor
      · intro h
        rw [heq] at h
        simp at h
      · intro h
        have := h t hc
        rw [hsd] at this
        exact Bool.noConfusion this
  · constructor
    · constructor
      · intro h
        rw [heq] at h
        simp at h
      · rintro ⟨t, hc', hsd'⟩
        have := hno t hc'
        rw [hsd'] at this
        exact Bool.noConfusion this
    · constructor
      · intro _
        exact hno
      · intro _
        rw [heq]

/-- Witness for C1: with a check-in stored at 23:59 on 1 April 2024, a
check-in at 00:01 on 2 April (two minutes later) succeeds, while one at
22:00 on 1 April is rejected with 400. -/
theorem checkin_calendar_day_rule_witness :
    (postCheckinH noFail ⟨2024, 4, 2, 0, 1⟩ lateStore).1.status = 200
    ∧ (postCheckinH noFail ⟨2024, 4, 1, 22, 0⟩ lateStore).1
        = ⟨400, .jsonError "Already checked in today"⟩ :=
  ⟨(checkin_calendar_day_rule lateStore ⟨2024, 4, 2, 0, 1⟩).2.mpr (fun t ht => by
      have h0 : (resolveDemoUser lateStore).1.lastCheckin
          = some ⟨2024, 4, 1, 23, 59⟩ := rfl
      rw [h0] at ht
      injection ht with h1
      rw [← h1]
      decide),
   (checkin_calendar_day_rule lateStore ⟨2024, 4, 1, 22, 0⟩).1.mpr
     ⟨⟨2024, 4, 1, 23, 59⟩, rfl, by decide⟩⟩

/-! ## C2 — demo-user resolution convention -/

/-- C2: the shared resolution helper `getDemoUser` (called by every
endpoint that needs a current user) fetches all users; when none exist it
creates one with the fixed demo credentials ("DemoUser"/"demo"), and
otherwise it yields the last element of the user list — the
most-recently-created user, never the first. -/
theorem demo_user_resolution (s : Store) :
    getDemoUser noFail s = .ok (resolveDemoUser s).1 (resolveDemoUser s).2
    ∧ (s.users = [] →
        resolveDemoUser s = createUserOp "DemoUser" "demo" s
        ∧ (resolveDemoUser s).1.username = "DemoUser"
        ∧ (resolveDemoUser s).1.password = "demo")
    ∧ ∀ u l, s.users = l ++ [u] → resolveDemoUser s = (u, s) := by
  refine ⟨getDemoUser_ok noFail s rfl rfl, ?_, ?_⟩
  · intro h
    have hl : s.users.getLast? = none := by rw [h]; rfl
    unfold resolveDemoUser
    rw [hl]
    exact ⟨rfl, rfl, rfl⟩
  · intro u l h
    have hl : s.users.getLast? = some u := by rw [h]; exact List.getLast?_concat l
    unfold resolveDemoUser
    rw [hl]

/-- Witness for C2: with users alice then bob, resolution picks bob (the
most recently created), and on an empty store it creates "DemoUser". -/
theorem demo_user_resolution_witness :
    resolveDemoUser twoUserStore = (uBob, twoUserStore)
    ∧ (resolveDemoUser emptyStore).1.username = "DemoUser"
    ∧ (resolveDemoUser emptyStore).1.password = "demo" :=
  ⟨(demo_user_resolution twoUserStore).2.2 uBob [uAlice] rfl,
   ((demo_user_resolution emptyStore).2.1 rfl).2.1,
   ((demo_user_resolution emptyStore).2.1 rfl).2.2⟩

/-! ## C9 — check-in side effects -/

/-- C9: a successful `POST /checkin` (200) responds with the user updated
to the new check-in time and appends exactly one new notification, titled
"Daily Check-in Complete!", for the resolved user; a same-day rejection
(400) leaves the store exactly as it was — no notification, no check-in
update. -/
theorem checkin_notification_effect (s : Store) (now : DateTime) :
    ((postCheckinH noFail now s).1.status = 200 →
      ∃ v n, (postCheckinH noFail now s).1.body = .jsonUser v
        ∧ v.lastCheckin = some now
        ∧ v.id = (resolveDemoUser s).1.id
        ∧ (postCheckinH noFail now s).2.notifications = s.notifications ++ [n]
        ∧ n.title = "Daily Check-in Complete!"
        ∧ n.userId = (resolveDemoUser s).1.id
        ∧ n.read = false)
    ∧ ((postCheckinH noFail now s).1.status = 400 →
      (postCheckinH noFail now s).2 = s) := by
  rcases postCheckin_cases s now with ⟨t, hc, hsd, heq⟩ | ⟨hno, v, s1, h1, h2, h3, heq⟩
  · constructor
    · intro h
      rw [heq] at h
      simp at h
    · intro _
      rw [heq]
  · constructor
    · intro _
      obtain ⟨hnotif, hnext, _, _⟩ := updateUserCheckinOp_some_frame h1
      have hbase : s1.notifications = s.notifications := by
        rw [hnotif, (resolveDemoUser_frame s).2.1]
      refine ⟨v, ⟨s1.nextId, "Daily Check-in Complete!",
        "You've earned 10 points! Come back tomorrow for more.",
        false, (resolveDemoUser s).1.id⟩, ?_, h2, h3, ?_, rfl, rfl, rfl⟩
      · rw [heq]
      · rw [heq]
        show s1.notifications ++ _ = s.notifications ++ _
        rw [hbase]
    · intro h
      rw [heq] at h
      simp at h

/-- Witness for C9: on the late-check-in store, a next-day check-in
produces the notification and responds with the updated user, while a
same-day attempt leaves the store untouched. -/
theorem checkin_notification_effect_witness :
    (∃ v n, (postCheckinH noFail ⟨2024, 4, 2, 0, 1⟩ lateStore).1.body = .jsonUser v
      ∧ v.lastCheckin = some ⟨2024, 4, 2, 0, 1⟩
      ∧ v.id = (resolveDemoUser lateStore).1.id
      ∧ (postCheckinH noFail ⟨2024, 4, 2, 0, 1⟩ lateStore).2.notifications
          = lateStore.notifications ++ [n]
      ∧ n.title = "Daily Check-in Complete!"
      ∧ n.userId = (resolveDemoUser lateStore).1.id
      ∧ n.read = false)
    ∧ (postCheckinH noFail ⟨2024, 4, 1, 22, 0⟩ lateStore).2 = lateStore :=
  ⟨(checkin_notification_effect lateStore ⟨2024, 4, 2, 0, 1⟩).1 (by decide),
   (checkin_notification_effect lateStore ⟨2024, 4, 1, 22, 0⟩).2 (by decide)⟩

/-! ## C3 — error-status taxonomy -/

/-- Counterexample to C3: a storage failure (createMessage throwing) during
`POST /messages` is answered with HTTP 400 "Invalid message data", not the
500 the claim requires for storage failures — the endpoint's catch block is
itself the 400 path. -/
theorem error_taxonomy_counterexample :
    (postMessagesH { failCreateMessage := true } (some "hello") twoUserStore).1
      = ⟨400, .jsonError "Invalid message data"⟩
    ∧ (postMessagesH { failCreateMessage := true } (some "hello") twoUserStore).1.status
      ≠ 500 := by
  decide

/-- C3 (amended): `POST /messages`, `POST /notifications` and
`PATCH /settings` map every failure of their handlers — storage failures
included — to HTTP 400 with their generic "invalid data" message, because
their catch-all is the 400 path; the remaining endpoints map storage
failures to 500. -/
theorem error_status_mapping (s : Store) (mb : Option String)
    (nb : Option (String × String)) (pb : Option SettingsPatch) :
    (postMessagesH { failCreateMessage := true } mb s).1
      = ⟨400, .jsonError "Invalid message data"⟩
    ∧ (postMessagesH { failUpdateUserPoints := true } mb s).1
      = ⟨400, .jsonError "Invalid message data"⟩
    ∧ (postNotificationsH { failCreateNotification := true } nb s).1
      = ⟨400, .jsonError "Invalid notification data"⟩
    ∧ (patchSettingsH { failGetSettings := true } pb s).1
      = ⟨400, .jsonError "Invalid settings data"⟩
    ∧ (patchSettingsH { failCreateSettings := true, failUpdateSettings := true } pb s).1
      = ⟨400, .jsonError "Invalid settings data"⟩
    ∧ (getMessagesH { failGetMessages := true } s).1
      = ⟨500, .jsonError "Failed to fetch messages"⟩
    ∧ (getNotificationsH { failGetNotifications := true } s).1
      = ⟨500, .jsonError "Failed to fetch notifications"⟩
    ∧ (getSettingsH { failGetSettings := true } s).1
      = ⟨500, .jsonError "Failed to fetch settings"⟩
    ∧ (deleteNotificationH { failDeleteNotification := true } 0 s).1
      = ⟨500, .jsonError "Failed to delete notification"⟩
    ∧ (postReferralCompleteH { failCompleteReferral := true }
        (some "CODE") (some "uid-1") s).1
      = ⟨500, .jsonError "Failed to complete referral"⟩ := by
  refine ⟨?_, ?_, ?_, ?_, ?_, ?_, ?_, ?_, ?_, ?_⟩
  · unfold postMessagesH
    rw [getDemoUser_ok _ s rfl rfl]
    cases mb <;> simp
  · unfold postMessagesH
    rw [getDemoUser_ok _ s rfl rfl]
    cases mb <;> simp [createMessageOp]
  · unfold postNotificationsH
    rw [getDemoUser_ok _ s rfl rfl]
    cases nb with
    | none => simp
    | some pr =>
        obtain ⟨a, b⟩ := pr
        simp
  · unfold patchSettingsH
    rw [getDemoUser_ok _ s rfl rfl]
    cases pb <;> simp
  · unfold patchSettingsH
    rw [getDemoUser_ok _ s rfl rfl]
    cases pb with
    | none => simp
    | some p =>
        cases hq : getSettingsByUserIdOp (resolveDemoUser s).1.id (resolveDemoUser s).2 <;>
          simp [hq]
  · unfold getMessagesH
    rw [getDemoUser_ok _ s rfl rfl]
    simp
  · unfold getNotificationsH
    rw [getDemoUser_ok _ s rfl rfl]
    simp
  · unfold getSettingsH
    rw [getDemoUser_ok _ s rfl rfl]
    simp
  · unfold deleteNotificationH
    simp
  · unfold postReferralCompleteH
    simp [truthy]

/-! ## C10 — partial effect behind a 400 -/

/-- C10: when `createMessage` succeeds but the subsequent
`updateUserPoints` throws, `POST /messages` answers 400 "Invalid message
data" while the created message stays persisted in the store — the 400
does not imply the store is unchanged. -/
theorem message_persisted_despite_400 (s : Store) (content : String) :
    ∃ m s2, postMessagesH { failUpdateUserPoints := true } (some content) s
        = (⟨400, .jsonError "Invalid message data"⟩, s2)
      ∧ m ∈ s2.messages
      ∧ m.content = content
      ∧ m.userId = (resolveDemoUser s).1.id := by
  refine ⟨(createMessageOp content (resolveDemoUser s).1.id (resolveDemoUser s).2).1,
          (createMessageOp content (resolveDemoUser s).1.id (resolveDemoUser s).2).2,
          ?_, ?_, rfl, rfl⟩
  · unfold postMessagesH
    rw [getDemoUser_ok _ s rfl rfl]
    rfl
  · simp [createMessageOp]

/-! ## C4 — message creation awards exactly one point -/

theorem find?_id_of_pairwise {l : List User} {u : User}
    (hp : l.Pairwise fun a b => a.id ≠ b.id) (hm : u ∈ l) :
    l.find? (fun v => v.id == u.id) = some u := by
  induction l with
  | nil => cases hm
  | cons a l ih =>
      rcases List.mem_cons.mp hm with h | h
      · subst h
        exact List.find?_cons_of_pos l (by simp)
      · have ha : a.id ≠ u.id := (List.pairwise_cons.mp hp).1 u h
        rw [List.find?_cons_of_neg l (by simp [ha])]
        exact ih (List.pairwise_cons.mp hp).2 h

theorem resolveDemoUser_eq_of_getLast (s : Store) {u : User}
    (h : s.users.getLast? = some u) : resolveDemoUser s = (u, s) := by
  unfold resolveDemoUser
  rw [h]

theorem resolveDemoUser_unique (s : Store) (h : UniqueUserIds s) :
    (resolveDemoUser s).2.users.Pairwise fun a b => a.id ≠ b.id := by
  unfold resolveDemoUser
  cases hl : s.users.getLast? with
  | none =>
      have he : s.users = [] := List.getLast?_eq_none_iff.mp hl
      simp [createUserOp, he]
  | some u => exact h

theorem pointsOf_updateUserPoints {s : Store} {u : User} (d : Int)
    (hp : s.users.Pairwise fun a b => a.id ≠ b.id) (hm : u ∈ s.users) :
    pointsOf u.id (updateUserPointsOp u.id d s) = u.points + d := by
  unfold pointsOf updateUserPointsOp
  rw [List.find?_map]
  have hfun : ((fun v : User => v.id == u.id) ∘ (fun v : User =>
      if v.id == u.id then { v with points := v.points + d } else v))
      = fun v : User => v.id == u.id := by
    funext v
    by_cases hv : v.id = u.id
    · simp [hv]
    · simp [hv]
  rw [hfun, find?_id_of_pairwise hp hm]
  simp

/-- C4: a successful `POST /messages` with any valid payload responds 200
with the created message, which carries the supplied content and belongs to
the resolved user; the resolved user's point total rises by exactly 1; and
the message appears in the list `GET /messages` returns afterwards. -/
theorem post_message_point_award (s : Store) (content : String)
    (h : UniqueUserIds s) :
    ∃ m s2, postMessagesH noFail (some content) s = (⟨200, .jsonMessage m⟩, s2)
      ∧ m.content = content
      ∧ m.userId = (resolveDemoUser s).1.id
      ∧ pointsOf (resolveDemoUser s).1.id s2 = (resolveDemoUser s).1.points + 1
      ∧ ∃ L, (getMessagesH noFail s2).1 = ⟨200, .jsonMessages L⟩ ∧ m ∈ L := by
  have hmem : (resolveDemoUser s).1 ∈ (resolveDemoUser s).2.users := resolveDemoUser_mem s
  have hpair : (resolveDemoUser s).2.users.Pairwise (fun a b => a.id ≠ b.id) :=
    resolveDemoUser_unique s h
  refine ⟨(createMessageOp content (resolveDemoUser s).1.id (resolveDemoUser s).2).1,
    updateUserPointsOp (resolveDemoUser s).1.id 1
      (createMessageOp content (resolveDemoUser s).1.id (resolveDemoUser s).2).2,
    ?_, rfl, rfl, ?_, ?_⟩
  · unfold postMessagesH
    rw [getDemoUser_ok _ s rfl rfl]
    rfl
  · exact pointsOf_updateUserPoints 1 hpair hmem
  · have hl2 : (updateUserPointsOp (resolveDemoUser s).1.id 1
        (createMessageOp content (resolveDemoUser s).1.id (resolveDemoUser s).2).2).users.getLast?
        = some { (resolveDemoUser s).1 with points := (resolveDemoUser s).1.points + 1 } := by
      show ((resolveDemoUser s).2.users.map fun v =>
        if v.id == (resolveDemoUser s).1.id then { v with points := v.points + 1 } else v).getLast?
        = _
      rw [List.getLast?_map, resolveDemoUser_users_getLast s]
      simp
    have hres2 : resolveDemoUser (updateUserPointsOp (resolveDemoUser s).1.id 1
        (createMessageOp content (resolveDemoUser s).1.id (resolveDemoUser s).2).2)
        = ({ (resolveDemoUser s).1 with points := (resolveDemoUser s).1.points + 1 },
           updateUserPointsOp (resolveDemoUser s).1.id 1
             (createMessageOp content (resolveDemoUser s).1.id (resolveDemoUser s).2).2) :=
      resolveDemoUser_eq_of_getLast _ hl2
    refine ⟨(updateUserPointsOp (resolveDemoUser s).1.id 1
        (createMessageOp content (resolveDemoUser s).1.id (resolveDemoUser s).2).2).messages.filter
        (fun mm => mm.userId == (resolveDemoUser s).1.id), ?_, ?_⟩
    · unfold getMessagesH
      rw [getDemoUser_ok _ _ rfl rfl, hres2]
      rfl
    · apply List.mem_filter.mpr
      constructor
      · show _ ∈ (resolveDemoUser s).2.messages ++ [_]
        exact List.mem_append_right _ (List.mem_singleton.mpr rfl)
      · simp [createMessageOp]

/-- Witness for C4: posting "hi" on the two-user store awards bob (the
resolved user) exactly one point and the message shows up in the GET
response. -/
theorem post_message_point_award_witness :
    ∃ m s2, postMessagesH noFail (some "hi") twoUserStore = (⟨200, .jsonMessage m⟩, s2)
      ∧ m.content = "hi"
      ∧ m.userId = (resolveDemoUser twoUserStore).1.id
      ∧ pointsOf (resolveDemoUser twoUserStore).1.id s2
          = (resolveDemoUser twoUserStore).1.points + 1
      ∧ ∃ L, (getMessagesH noFail s2).1 = ⟨200, .jsonMessages L⟩ ∧ m ∈ L :=
  post_message_point_award twoUserStore "hi" (by unfold UniqueUserIds; decide)

/-! ## C8 — notification deletion -/

theorem getNotificationsH_noFail (s : Store) :
    getNotificationsH noFail s
      = (⟨200, .jsonNotifications ((resolveDemoUser s).2.notifications.filter
          fun n => n.userId == (resolveDemoUser s).1.id)⟩, (resolveDemoUser s).2) := by
  unfold getNotificationsH
  rw [getDemoUser_ok _ s rfl rfl]
  rfl

/-- C8: `DELETE /notifications/:id` on an id with no matching record
answers 404 and leaves the store (hence the notification list) unchanged;
on a matching id it answers 200 `{success:true}` and no notification with
that id appears in a subsequent `GET /notifications`. -/
theorem delete_notification_spec (s : Store) (nid : Nat) :
    (s.notifications.any (fun n => n.id == nid) = false →
      deleteNotificationH noFail nid s = (⟨404, .jsonError "Notification not found"⟩, s))
    ∧ (s.notifications.any (fun n => n.id == nid) = true →
      (deleteNotificationH noFail nid s).1 = ⟨200, .jsonSuccess⟩
      ∧ ∃ L, (getNotificationsH noFail (deleteNotificationH noFail nid s).2).1
          = ⟨200, .jsonNotifications L⟩ ∧ ∀ n ∈ L, n.id ≠ nid) := by
  constructor
  · intro h
    unfold deleteNotificationH deleteNotificationOp
    simp [h, noFail]
  · intro h
    have hd : deleteNotificationH noFail nid s
        = (⟨200, .jsonSuccess⟩,
           { s with notifications := s.notifications.filter fun n => n.id != nid }) := by
      unfold deleteNotificationH deleteNotificationOp
      simp [h, noFail]
    constructor
    · rw [hd]
    · rw [hd, getNotificationsH_noFail]
      refine ⟨_, rfl, ?_⟩
      intro n hn
      have hn2 := (List.mem_filter.mp hn).1
      rw [(resolveDemoUser_frame _).2.1] at hn2
      have hne := (List.mem_filter.mp hn2).2
      simpa using hne

/-- A single notification with id 5 owned by alice. -/
def notif5 : Notification := ⟨5, "t", "m", false, 0⟩

/-- A store holding one user and one notification (id 5). -/
def notifStore : Store := ⟨[uAlice], [], [notif5], [], [], [], 6⟩

/-- Witness for C8: deleting the unknown id 9 answers 404 and leaves the
store unchanged; deleting id 5 answers 200 and id 5 is gone from the GET
response. -/
theorem delete_notification_spec_witness :
    deleteNotificationH noFail 9 notifStore
      = (⟨404, .jsonError "Notification not found"⟩, notifStore)
    ∧ ((deleteNotificationH noFail 5 notifStore).1 = ⟨200, .jsonSuccess⟩
      ∧ ∃ L, (getNotificationsH noFail (deleteNotificationH noFail 5 notifStore).2).1
          = ⟨200, .jsonNotifications L⟩ ∧ ∀ n ∈ L, n.id ≠ 5) :=
  ⟨(delete_notification_spec notifStore 9).1 (by decide),
   (delete_notification_spec notifStore 5).2 (by decide)⟩

/-! ## C6 — settings defaults on first read -/

/-- C6: `GET /settings` with no settings record for the resolved user
creates and returns the defaults (theme "light", notifications on, email
notifications off), persists the record, and a repeated `GET /settings`
returns the very same record without further change. -/
theorem get_settings_defaults (s : Store)
    (h : getSettingsByUserIdOp (resolveDemoUser s).1.id (resolveDemoUser s).2 = none) :
    ∃ s2, getSettingsH noFail s
        = (⟨200, .jsonSettings ⟨(resolveDemoUser s).1.id, "light", true, false⟩⟩, s2)
      ∧ (⟨(resolveDemoUser s).1.id, "light", true, false⟩ : Settings) ∈ s2.settings
      ∧ getSettingsH noFail s2
          = (⟨200, .jsonSettings ⟨(resolveDemoUser s).1.id, "light", true, false⟩⟩, s2) := by
  refine ⟨(createSettingsOp "light" true false (resolveDemoUser s).1.id (resolveDemoUser s).2).2,
    ?_, ?_, ?_⟩
  · unfold getSettingsH
    rw [getDemoUser_ok _ s rfl rfl]
    simp [h, createSettingsOp, noFail]
  · show _ ∈ (resolveDemoUser s).2.settings ++ [_]
    exact List.mem_append_right _ (List.mem_singleton.mpr rfl)
  · have hres : resolveDemoUser
        (createSettingsOp "light" true false (resolveDemoUser s).1.id (resolveDemoUser s).2).2
        = ((resolveDemoUser s).1,
           (createSettingsOp "light" true false (resolveDemoUser s).1.id (resolveDemoUser s).2).2) := by
      apply resolveDemoUser_eq_of_getLast
      show (resolveDemoUser s).2.users.getLast? = _
      exact resolveDemoUser_users_getLast s
    have hfind : getSettingsByUserIdOp (resolveDemoUser s).1.id
        (createSettingsOp "light" true false (resolveDemoUser s).1.id (resolveDemoUser s).2).2
        = some ⟨(resolveDemoUser s).1.id, "light", true, false⟩ := by
      unfold getSettingsByUserIdOp at h ⊢
      show ((resolveDemoUser s).2.settings ++ [_]).find? _ = _
      rw [List.find?_append, h]
      simp
    unfold getSettingsH
    rw [getDemoUser_ok _ _ rfl rfl, hres]
    simp [hfind, noFail]

/-- Witness for C6: on the empty store (demo user auto-created, no
settings), GET /settings creates the defaults and is idempotent. -/
theorem get_settings_defaults_witness :
    ∃ s2, getSettingsH noFail emptyStore
        = (⟨200, .jsonSettings ⟨(resolveDemoUser emptyStore).1.id, "light", true, false⟩⟩, s2)
      ∧ (⟨(resolveDemoUser emptyStore).1.id, "light", true, false⟩ : Settings) ∈ s2.settings
      ∧ getSettingsH noFail s2
          = (⟨200, .jsonSettings ⟨(resolveDemoUser emptyStore).1.id, "light", true, false⟩⟩, s2) :=
  get_settings_defaults emptyStore (by decide)

/-! ## C5 — settings patch semantics -/

/-- A one-user store (alice, id 0) with no settings record. -/
def oneUserStore : Store := ⟨[uAlice], [], [], [], [], [], 1⟩

/-- Counterexample to C5: with no settings record, a patch that supplies
the empty-string theme does not produce a record with the supplied value
merged over the defaults — the handler's JavaScript `parsed.theme ||
"light"` treats the empty string as falsy, so the created record carries
"light", not the supplied "". -/
theorem patch_settings_counterexample :
    (patchSettingsH noFail (some ⟨some "", none, none⟩) oneUserStore).1
      = ⟨200, .jsonSettings ⟨0, "light", true, false⟩⟩
    ∧ (⟨0, "light", true, false⟩ : Settings).theme ≠ "" := by
  decide

/-- C5 (amended): when no settings record exists, `PATCH /settings`
creates one from the supplied fields merged over the defaults, except that
a supplied empty-string theme falls back to the default "light" (JS `||`
falsiness); the boolean fields use nullish coalescing, so supplied `false`
survives.  When a record exists, the storage merge changes exactly the
supplied fields and leaves every other settings record in place. -/
theorem patch_settings_paths (s : Store) (p : SettingsPatch) :
    (getSettingsByUserIdOp (resolveDemoUser s).1.id (resolveDemoUser s).2 = none →
      ∃ s2, patchSettingsH noFail (some p) s
          = (⟨200, .jsonSettings ⟨(resolveDemoUser s).1.id, themeOrDefault p.theme,
              p.notifications.getD true, p.emailNotifications.getD false⟩⟩, s2)
        ∧ s2.settings = (resolveDemoUser s).2.settings
            ++ [⟨(resolveDemoUser s).1.id, themeOrDefault p.theme,
                 p.notifications.getD true, p.emailNotifications.getD false⟩])
    ∧ (∀ q, getSettingsByUserIdOp (resolveDemoUser s).1.id (resolveDemoUser s).2 = some q →
        ∃ q2 s2, patchSettingsH noFail (some p) s = (⟨200, .jsonSettings q2⟩, s2)
          ∧ q2.userId = q.userId
          ∧ q2.theme = p.theme.getD q.theme
          ∧ q2.notifications = p.notifications.getD q.notifications
          ∧ q2.emailNotifications = p.emailNotifications.getD q.emailNotifications
          ∧ ∀ r ∈ (resolveDemoUser s).2.settings,
              r.userId ≠ (resolveDemoUser s).1.id → r ∈ s2.settings) := by
  constructor
  · intro h
    refine ⟨(createSettingsOp (themeOrDefault p.theme) (p.notifications.getD true)
        (p.emailNotifications.getD false) (resolveDemoUser s).1.id (resolveDemoUser s).2).2,
      ?_, rfl⟩
    unfold patchSettingsH
    rw [getDemoUser_ok _ s rfl rfl]
    simp [h, createSettingsOp, noFail]
  · intro q hq
    refine ⟨mergePatch q p,
      updateSettingsOp (resolveDemoUser s).1.id p (resolveDemoUser s).2,
      ?_, rfl, rfl, rfl, rfl, ?_⟩
    · unfold patchSettingsH
      rw [getDemoUser_ok _ s rfl rfl]
      simp [hq, noFail]
    · intro r hr hne
      show r ∈ (resolveDemoUser s).2.settings.map fun q =>
        if q.userId == (resolveDemoUser s).1.id then mergePatch q p else q
      refine List.mem_map.mpr ⟨r, hr, ?_⟩
      simp [hne]

/-- A store with one user (alice) and an existing settings record for her:
theme "dark", notifications off, email notifications on. -/
def setStore : Store := ⟨[uAlice], [], [], [⟨0, "dark", false, true⟩], [], [], 1⟩

/-- Witness for C5 (amended): creating from `{theme:"dark"}` yields dark /
true / false; patching `{notifications:true}` on an existing record changes
only that field. -/
theorem patch_settings_paths_witness :
    (∃ s2, patchSettingsH noFail (some ⟨some "dark", none, none⟩) oneUserStore
        = (⟨200, .jsonSettings ⟨(resolveDemoUser oneUserStore).1.id,
            themeOrDefault (some "dark"), (none : Option Bool).getD true,
            (none : Option Bool).getD false⟩⟩, s2)
      ∧ s2.settings = (resolveDemoUser oneUserStore).2.settings
          ++ [⟨(resolveDemoUser oneUserStore).1.id, themeOrDefault (some "dark"),
               (none : Option Bool).getD true, (none : Option Bool).getD false⟩])
    ∧ (∃ q2 s2, patchSettingsH noFail (some ⟨none, some true, none⟩) setStore
        = (⟨200, .jsonSettings q2⟩, s2)
      ∧ q2.userId = (⟨0, "dark", false, true⟩ : Settings).userId
      ∧ q2.theme = (none : Option String).getD (⟨0, "dark", false, true⟩ : Settings).theme
      ∧ q2.notifications = (some true).getD (⟨0, "dark", false, true⟩ : Settings).notifications
      ∧ q2.emailNotifications
          = (none : Option Bool).getD (⟨0, "dark", false, true⟩ : Settings).emailNotifications
      ∧ ∀ r ∈ (resolveDemoUser setStore).2.settings,
          r.userId ≠ (resolveDemoUser setStore).1.id → r ∈ s2.settings) :=
  ⟨(patch_settings_paths oneUserStore ⟨some "dark", none, none⟩).1 (by decide),
   (patch_settings_paths setStore ⟨none, some true, none⟩).2 ⟨0, "dark", false, true⟩ (by decide)⟩

/-! ## C7 — referral completion -/

/-- A store with one user and one valid referral code "WELCOME". -/
def refStore : Store := ⟨[uAlice], [], [], [], ["WELCOME"], [], 1⟩

/-- Counterexample to C7: with both body fields present — a valid code and
an empty-string user id for which `completeReferral` would report success —
the endpoint still answers 400, because the JavaScript guard
`!referralCode || !userId` treats the empty string as falsy, not only
missing fields. -/
theorem referral_complete_counterexample :
    (completeReferralOp "WELCOME" "" refStore).1 = true
    ∧ postReferralCompleteH noFail (some "WELCOME") (some "") refStore
        = (⟨400, .jsonError "Missing referral code or user ID"⟩, refStore) := by
  decide

/-- C7 (amended): `POST /referral/complete` answers 400 whenever the
referral code or user id is falsy — missing or the empty string — without
touching storage; when both are present and non-empty it answers 404 when
`completeReferral` reports failure and 200 `{success:true}` when it
reports success. -/
theorem referral_complete_spec (code uid : Option String) (s : Store) :
    ((truthy code = false ∨ truthy uid = false) →
      postReferralCompleteH noFail code uid s
        = (⟨400, .jsonError "Missing referral code or user ID"⟩, s))
    ∧ (∀ c u, code = some c → uid = some u → c ≠ "" → u ≠ "" →
        ((completeReferralOp c u s).1 = false →
          postReferralCompleteH noFail code uid s
            = (⟨404, .jsonError "Invalid referral code"⟩, s))
        ∧ ((completeReferralOp c u s).1 = true →
          postReferralCompleteH noFail code uid s
            = (⟨200, .jsonSuccess⟩, (completeReferralOp c u s).2))) := by
  constructor
  · intro h
    unfold postReferralCompleteH
    rcases h with h | h <;> simp [h]
  · intro c u hc hu hcne hune
    subst hc
    subst hu
    have ht1 : truthy (some c) = true := by simp [truthy, hcne]
    have ht2 : truthy (some u) = true := by simp [truthy, hune]
    constructor
    · intro hf
      unfold postReferralCompleteH
      rw [ht1, ht2]
      rcases hcr : completeReferralOp c u s with ⟨ok, s'⟩
      rw [hcr] at hf
      simp at hf
      subst hf
      simp [noFail, hcr]
    · intro hf
      unfold postReferralCompleteH
      rw [ht1, ht2]
      rcases hcr : completeReferralOp c u s with ⟨ok, s'⟩
      rw [hcr] at hf
      simp at hf
      subst hf
      simp [noFail, hcr]

/-- Witness for C7 (amended): a missing user id yields 400 even with the
valid code "WELCOME"; with both fields present and non-empty, an invalid
code yields 404 and the valid code yields 200. -/
theorem referral_complete_spec_witness :
    postReferralCompleteH noFail (some "WELCOME") none refStore
      = (⟨400, .jsonError "Missing referral code or user ID"⟩, refStore)
    ∧ postReferralCompleteH noFail (some "BAD") (some "u1") refStore
      = (⟨404, .jsonError "Invalid referral code"⟩, refStore)
    ∧ postReferralCompleteH noFail (some "WELCOME") (some "u1") refStore
      = (⟨200, .jsonSuccess⟩, (completeReferralOp "WELCOME" "u1" refStore).2) :=
  ⟨(referral_complete_spec (some "WELCOME") none refStore).1 (Or.inr rfl),
   ((referral_complete_spec (some "BAD") (some "u1") refStore).2 "BAD" "u1"
      rfl rfl (by decide) (by decide)).1 (by decide),
   ((referral_complete_spec (some "WELCOME") (some "u1") refStore).2 "WELCOME" "u1"
      rfl rfl (by decide) (by decide)).2 (by decide)⟩
